import Mathlib

/-!
Shallow embedding of the two example scripts of the OpenCortex repository:
`exec-agent/examples/test_container.py` and `exec-agent/examples/worker_script.py`.

Files are modelled at the JSON-value level (what Python's `json` library
decodes a file to, or encodes a value from).  The environment, the staged
workspace files and the outcome of the single HTTP request the test container
may perform are gathered in an explicit world record; running a script is a
pure function from that world to either a normal outcome (exit code 0) or an
uncaught Python exception, modelled as `Except.error` (exit code 1).
Python operations that can raise (`len`, `d[k]`, `.keys()`) return `Except`.
-/

/-- JSON values as decoded by Python's `json` library: strings, numbers,
booleans, null, arrays and objects.  Objects keep insertion order, as Python
dicts do; numbers are modelled as rationals. -/
inductive JVal where
  | str : String → JVal
  | num : Rat → JVal
  | bool : Bool → JVal
  | null : JVal
  | arr : List JVal → JVal
  | obj : List (String × JVal) → JVal

/-- A decoded JSON object: an ordered association list of keys and values. -/
abbrev JObj := List (String × JVal)

/-- Key lookup in a decoded JSON object (first match; decoded Python dicts
have unique keys). -/
def getKey : JObj → String → Option JVal
  | [], _ => none
  | (k, v) :: rest, key => if k = key then some v else getKey rest key

/-- Python `d.get(key, dflt)` on a decoded JSON object. -/
def dictGet (o : JObj) (key : String) (dflt : JVal) : JVal :=
  (getKey o key).getD dflt

/-- Python `len(v)` on a decoded JSON value: defined for strings, arrays and
objects, a `TypeError` otherwise. -/
def pyLen : JVal → Except String Nat
  | .str s => .ok s.length
  | .arr xs => .ok xs.length
  | .obj kvs => .ok kvs.length
  | _ => .error "TypeError: object has no len"

/-- Python `v[key]` with a string key on a decoded JSON value: a `KeyError`
when the key is missing from an object, a `TypeError` on non-objects. -/
def pyGetItem (v : JVal) (key : String) : Except String JVal :=
  match v with
  | .obj kvs =>
    match getKey kvs key with
    | some x => .ok x
    | none => .error ("KeyError: " ++ key)
  | _ => .error "TypeError: value is not subscriptable by string"

/-- Python `list(v.keys())` on a decoded JSON value: the keys of an object,
an `AttributeError` otherwise. -/
def pyKeys : JVal → Except String (List String)
  | .obj kvs => .ok (kvs.map Prod.fst)
  | _ => .error "AttributeError: value has no keys"

/-- Python `v.get(key, dflt)` when `v` is a decoded JSON value already known
to be an object (the default is returned on non-objects, a case unreachable
where this helper is used). -/
def jget (v : JVal) (key : String) (dflt : JVal) : JVal :=
  match v with
  | .obj kvs => dictGet kvs key dflt
  | _ => dflt

/-- Whether a decoded JSON value is an array. -/
def isArr : JVal → Bool
  | .arr _ => true
  | _ => false

/-- Python `v == s` between a decoded JSON value and a string literal. -/
def isStrEq (v : JVal) (s : String) : Bool :=
  match v with
  | .str t => t == s
  | _ => false

/-- Outcome of `requests.get(f"{service_proxy_url}/health", timeout=5)`
followed by `.json()`: either the request itself raises (connection failure,
timeout), or a response arrives with a status code and a body that either
parses as JSON or raises on `.json()`. -/
inductive HttpOutcome where
  | connError : String → HttpOutcome
  | response : Nat → Except String JVal → HttpOutcome

/-- The world visible to one run of `test_container.py`: the two environment
variables it reads, the parsed contents of the optional workspace files, the
regular files under `input/`, and what the health request would produce. -/
structure ContainerWorld where
  executionId? : Option String
  graphData? : Option JObj
  configData? : Option JObj
  inputFiles : List String
  serviceProxyUrl? : Option String
  healthOutcome : HttpOutcome

/-- Step 1 of `test_container.main` (lines 37-46): when
`input/graph_data.json` exists, record `input_graph_stats` with the lengths
of `graph_data.get('nodes', [])` and `graph_data.get('relationships', [])`;
`len` of a non-sized value raises. -/
def graphStep : Option JObj → Except String JObj
  | none => .ok []
  | some g =>
    match pyLen (dictGet g "nodes" (.arr [])), pyLen (dictGet g "relationships" (.arr [])) with
    | .ok n, .ok m =>
      .ok [("input_graph_stats",
            .obj [("node_count", .num n), ("relationship_count", .num m)])]
    | .error e, _ => .error e
    | _, .error e => .error e

/-- Step 2 of `test_container.main` (lines 48-54): when `config/config.json`
exists, record its top-level keys under `config_keys`. -/
def configStep : Option JObj → JObj
  | none => []
  | some c => [("config_keys", .arr ((c.map Prod.fst).map JVal.str))]

/-- The body of the `try`/`except` block of `test_container.main`
(lines 64-77), as the key/value pairs it adds to `results`.  A status code of
200 leads to `health_response.json()`, then `health_data['status']` (inside a
print, but it can raise), then `service_proxy_status = 'healthy'`, then the
keys of `health_data.get('services', {})`.  Any exception is caught and
recorded under `service_proxy_error`; note that `service_proxy_status` keeps
the value already assigned when the exception happens after line 70. -/
def serviceStep : HttpOutcome → JObj
  | .connError msg => [("service_proxy_error", .str msg)]
  | .response code body =>
    if code = 200 then
      (match body with
       | .error msg => [("service_proxy_error", .str msg)]
       | .ok data =>
         match pyGetItem data "status" with
         | .error msg => [("service_proxy_error", .str msg)]
         | .ok _ =>
           match pyKeys (jget data "services" (.obj [])) with
           | .error msg =>
             [("service_proxy_status", .str "healthy"), ("service_proxy_error", .str msg)]
           | .ok names =>
             [("service_proxy_status", .str "healthy"),
              ("available_services", .arr (names.map JVal.str))])
    else [("service_proxy_status", .str "unhealthy")]

/-- Step 4 of `test_container.main` (lines 61-77): the service proxy is
contacted only when `SERVICE_PROXY_URL` is present and truthy (Python
`if service_proxy_url:`; the empty string is falsy). -/
def serviceGate (url? : Option String) (outcome : HttpOutcome) : JObj :=
  match url? with
  | none => []
  | some url => if url = "" then [] else serviceStep outcome

/-- The graph update `test_container.main` writes to
`output/graph_update.json` (lines 107-131): one `Analysis` node and one
`ANALYZED_BY` relationship, both embedding the execution id. -/
def mkGraphUpdate (execution_id : String) : JVal :=
  .obj [("nodes", .arr [ .obj [
            ("id", .str ("analysis-" ++ execution_id)),
            ("labels", .arr [.str "Analysis"]),
            ("properties", .obj [
              ("type", .str "container_execution"),
              ("execution_id", .str execution_id),
              ("timestamp", .str "2025-01-01T00:00:00Z"),
              ("status", .str "completed")])]]),
        ("relationships", .arr [ .obj [
            ("id", .str ("analyzed-" ++ execution_id)),
            ("type", .str "ANALYZED_BY"),
            ("start_node", .str "original-data"),
            ("end_node", .str ("analysis-" ++ execution_id)),
            ("properties", .obj [("timestamp", .str "2025-01-01T00:00:00Z")])]])]

/-- The content of `output/analysis.txt` (lines 93-102), modelled as the five
values interpolated into its lines. -/
structure AnalysisReport where
  executionId : String
  inputFilesProcessed : Nat
  serviceProxyAvailable : Bool
  graphDataAvailable : Bool
  configurationAvailable : Bool

/-- Everything a completed run of `test_container.main` wrote: the name of
the results file under `output/`, the JSON object written to it, the analysis
report, and the optional graph update. -/
structure MainOutcome where
  resultsFileName : String
  results : JObj
  analysis : AnalysisReport
  graphUpdate? : Option JVal

/-- The `results` dict of `test_container.main` in program order: the graph
stats (step 1), the config keys (step 2), the input file names (step 3), the
service proxy keys (step 4), then `execution_id`, `status` and the fixed
message (lines 84-86). -/
def buildResults (w : ContainerWorld) (graphKVs : JObj) : JObj :=
  graphKVs ++ configStep w.configData?
    ++ [("input_files", .arr (w.inputFiles.map JVal.str))]
    ++ serviceGate w.serviceProxyUrl? w.healthOutcome
    ++ [("execution_id", .str (w.executionId?.getD "unknown")),
        ("status", .str "completed"),
        ("message", .str "Test container executed successfully")]

/-- `test_container.main` (lines 15-139).  `EXECUTION_ID` defaults to
`"unknown"`; a completed run writes `results.json`, the analysis report, and
a graph update exactly when `input/graph_data.json` exists; the function
returns 0, so the process exit code is 0.  An uncaught exception is
`Except.error`. -/
def runMain (w : ContainerWorld) : Except String MainOutcome :=
  match graphStep w.graphData? with
  | .error e => .error e
  | .ok graphKVs =>
    let results := buildResults w graphKVs
    match pyLen (dictGet results "input_files" (.arr [])) with
    | .error e => .error e
    | .ok n =>
      .ok { resultsFileName := "results.json"
            results := results
            analysis := { executionId := w.executionId?.getD "unknown"
                          inputFilesProcessed := n
                          serviceProxyAvailable := (getKey results "service_proxy_status").isSome
                          graphDataAvailable := (getKey results "input_graph_stats").isSome
                          configurationAvailable := (getKey results "config_keys").isSome }
            graphUpdate? := w.graphData?.map fun _ => mkGraphUpdate (w.executionId?.getD "unknown") }

/-- Process exit code of `test_container.py` (`exit(main())`; an uncaught
exception makes Python exit with code 1). -/
def mainExitCode (w : ContainerWorld) : Nat :=
  match runMain w with
  | .ok _ => 0
  | .error _ => 1

/-- The GraphSnapshot shape the spec requires of an ingested
`input/graph_data.json`: the `nodes` and `relationships` fields (after the
`.get` defaults) are arrays. -/
def validGraph (g : JObj) : Bool :=
  isArr (dictGet g "nodes" (.arr [])) && isArr (dictGet g "relationships" (.arr []))

/-- A workspace whose optional graph input passed the shape validation the
spec performs on ingestion. -/
def validWorkspace (w : ContainerWorld) : Bool :=
  match w.graphData? with
  | none => true
  | some g => validGraph g

/-- A GraphDelta: nodes and relationships, as in the spec data model. -/
structure GraphDelta where
  nodes : List JVal
  relationships : List JVal

/-- The JSON object shape in which `test_container.main` writes a GraphDelta
to `output/graph_update.json` (lines 107-131): a `nodes` array and a
`relationships` array. -/
def encodeGraphDelta (d : GraphDelta) : JObj :=
  [("nodes", .arr d.nodes), ("relationships", .arr d.relationships)]

/-- The two well-known result file names under `output/` recognized by the
Result Collector. -/
def wellKnownNames : List String := ["result.json", "results.json"]

/-- The world visible to one run of `worker_script.py`: the parsed contents
of `/workspace/input/config.json` (the path the script actually opens, line
17) and of `/workspace/config/config.json` (the path the Workspace
Materializer writes the config map to; the script never opens it), each
`none` when the file does not exist. -/
structure WorkerWorld where
  inputConfig? : Option JObj
  workspaceConfig? : Option JObj

/-- `worker_script.process_data` (lines 46-59): counts
`config.get("input_files", [])`; `len` of a non-sized value raises. -/
def process_data (config : JObj) : Except String JObj :=
  match pyLen (dictGet config "input_files" (.arr [])) with
  | .error e => .error e
  | .ok n =>
    .ok [("operation", .str "data_processing"),
         ("files_processed", .num n),
         ("status", .str "completed"),
         ("output_files", .arr [.str "processed_data.json"])]

/-- `worker_script.train_model` (lines 61-74). -/
def train_model (config : JObj) : JObj :=
  [("operation", .str "ml_training"),
   ("model_type", dictGet config "model_type" (.str "random_forest")),
   ("accuracy", .num 0.95),
   ("status", .str "completed"),
   ("output_files", .arr [.str "model.pkl", .str "metrics.json"])]

/-- `worker_script.default_processing` (lines 76-84). -/
def default_processing (_config : JObj) : JObj :=
  [("operation", .str "default"),
   ("status", .str "completed"),
   ("message", .str "Default processing completed successfully")]

/-- Lines 16-24 of `worker_script.main`: the configuration the worker uses is
the parsed contents of `/workspace/input/config.json` when that file exists,
and `{"operation": "default"}` otherwise. -/
def workerConfig (w : WorkerWorld) : JObj :=
  match w.inputConfig? with
  | some c => c
  | none => [("operation", .str "default")]

/-- Lines 26-34 of `worker_script.main`: dispatch on
`config.get("operation", "default")` compared against the two string tags. -/
def workerDispatch (config : JObj) : Except String JObj :=
  if isStrEq (dictGet config "operation" (.str "default")) "data_processing" then
    process_data config
  else if isStrEq (dictGet config "operation" (.str "default")) "ml_training" then
    .ok (train_model config)
  else
    .ok (default_processing config)

/-- Everything a completed run of `worker_script.main` wrote: the name of the
result file under `output/` and the JSON object written to it. -/
structure WorkerOutcome where
  resultFileName : String
  result : JObj

/-- `worker_script.main` (lines 12-44): load the configuration, dispatch, and
write the result to `output/result.json`; the function returns 0. -/
def runWorker (w : WorkerWorld) : Except String WorkerOutcome :=
  match workerDispatch (workerConfig w) with
  | .error e => .error e
  | .ok r => .ok { resultFileName := "result.json", result := r }

/-- Process exit code of `worker_script.py` (`sys.exit(main())`). -/
def workerExitCode (w : WorkerWorld) : Nat :=
  match runWorker w with
  | .ok _ => 0
  | .error _ => 1

/-- Observation: the value the results object written by a completed run of
the test container associates to a key (an exception propagates). -/
def mainResultKey (w : ContainerWorld) (key : String) : Except String (Option JVal) :=
  (runMain w).map fun o => getKey o.results key

/-- Observation: the file name under `output/` the test container writes its
results object to. -/
def mainResultsFileName (w : ContainerWorld) : Except String String :=
  (runMain w).map MainOutcome.resultsFileName

/-- Observation: the execution id embedded in the analysis report. -/
def mainAnalysisExecId (w : ContainerWorld) : Except String String :=
  (runMain w).map fun o => o.analysis.executionId

/-- Observation: the graph update written by a completed run, when any. -/
def mainGraphUpdate (w : ContainerWorld) : Except String (Option JVal) :=
  (runMain w).map MainOutcome.graphUpdate?

/-- A sample world: a graph input with three nodes and two relationships, no
`SERVICE_PROXY_URL` granted. -/
def sampleNoProxyGraphWorld : ContainerWorld :=
  { executionId? := some "exec-1"
    graphData? := some [("nodes", .arr [.null, .null, .null]),
                        ("relationships", .arr [.null, .null])]
    configData? := none
    inputFiles := ["graph_data.json"]
    serviceProxyUrl? := none
    healthOutcome := .connError "never requested" }

/-- A sample world with an empty workspace and no proxy granted. -/
def sampleEmptyWorld : ContainerWorld :=
  { executionId? := some "exec-2", graphData? := none, configData? := none,
    inputFiles := [], serviceProxyUrl? := none,
    healthOutcome := .connError "never requested" }

/-- The outcome of running the test container in `sampleEmptyWorld`. -/
def sampleEmptyOutcome : MainOutcome :=
  { resultsFileName := "results.json"
    results := [("input_files", .arr []),
                ("execution_id", .str "exec-2"),
                ("status", .str "completed"),
                ("message", .str "Test container executed successfully")]
    analysis := { executionId := "exec-2", inputFilesProcessed := 0,
                  serviceProxyAvailable := false, graphDataAvailable := false,
                  configurationAvailable := false }
    graphUpdate? := none }

/-- A sample world whose proxy health endpoint answers 200 with a healthy
body listing one service. -/
def sampleHealthyWorld : ContainerWorld :=
  { executionId? := some "exec-4", graphData? := none, configData? := none,
    inputFiles := [], serviceProxyUrl? := some "http://localhost:8080",
    healthOutcome := .response 200 (.ok (.obj
      [("status", .str "healthy"), ("services", .obj [("catalog", .obj [])])])) }

/-- A sample world whose health request raises a connection error. -/
def sampleConnErrorWorld : ContainerWorld :=
  { executionId? := some "exec-9", graphData? := none, configData? := none,
    inputFiles := [], serviceProxyUrl? := some "http://localhost:8080",
    healthOutcome := .connError "Connection refused" }

/-- A sample world with no `EXECUTION_ID` and a graph input present. -/
def sampleNoIdWorld : ContainerWorld :=
  { executionId? := none
    graphData? := some [("nodes", .arr []), ("relationships", .arr [])]
    configData? := none
    inputFiles := []
    serviceProxyUrl? := some "http://localhost:8080"
    healthOutcome := .connError "Connection refused" }

/-- A sample world where the health endpoint answers 200 with an empty JSON
object as body. -/
def sampleEmptyBodyWorld : ContainerWorld :=
  { executionId? := some "exec-8", graphData? := none, configData? := none,
    inputFiles := [], serviceProxyUrl? := some "http://localhost:8080",
    healthOutcome := .response 200 (.ok (.obj [])) }

/-- A sample worker world: no `/workspace/input/config.json`, while the
Materializer-owned `config/config.json` requests `ml_training`. -/
def sampleWorkerWorld : WorkerWorld :=
  { inputConfig? := none,
    workspaceConfig? := some [("operation", .str "ml_training")] }

/-- The result object of the default-processing branch of the worker. -/
def sampleWorkerOutcome : WorkerOutcome :=
  { resultFileName := "result.json"
    result := [("operation", .str "default"), ("status", .str "completed"),
               ("message", .str "Default processing completed successfully")] }

/-- A decoded JSON value is an array exactly when it is `JVal.arr`. -/
theorem isArr_iff (v : JVal) : isArr v = true ↔ ∃ xs, v = .arr xs := by
  cases v <;> simp [isArr]

/-- Python string-vs-value equality holds exactly for that string value. -/
theorem isStrEq_true_iff (v : JVal) (s : String) :
    isStrEq v s = true ↔ v = .str s := by
  cases v <;> simp [isStrEq]

/-- When both graph fields are arrays, the graph step succeeds and records
their lengths. -/
theorem graphStep_arr (g : JObj) (ns rs : List JVal)
    (hn : dictGet g "nodes" (.arr []) = .arr ns)
    (hr : dictGet g "relationships" (.arr []) = .arr rs) :
    graphStep (some g) = .ok [("input_graph_stats",
      .obj [("node_count", .num ns.length), ("relationship_count", .num rs.length)])] := by
  simp [graphStep, hn, hr, pyLen]

/-- Lookup distributes over append when the key is absent on the left. -/
theorem getKey_append_none (a b : JObj) (k : String) (h : getKey a k = none) :
    getKey (a ++ b) k = getKey b k := by
  induction a with
  | nil => rfl
  | cons p rest ih =>
    rcases p with ⟨ky, v⟩
    by_cases hk : ky = k
    · simp [getKey, hk] at h
    · simp only [getKey, hk, if_false, List.cons_append] at h ⊢
      exact ih h

/-- Lookup distributes over append when the key is found on the left. -/
theorem getKey_append_some (a b : JObj) (k : String) (v : JVal)
    (h : getKey a k = some v) :
    getKey (a ++ b) k = some v := by
  induction a with
  | nil => simp [getKey] at h
  | cons p rest ih =>
    rcases p with ⟨ky, w⟩
    by_cases hk : ky = k
    · simp only [getKey, hk, if_true] at h
      simp only [List.cons_append, getKey, hk, if_true]
      exact h
    · simp only [getKey, hk, if_false] at h
      simp only [List.cons_append, getKey, hk, if_false]
      exact ih h

/-- The config step only ever records the key `config_keys`. -/
theorem getKey_configStep (cd? : Option JObj) (k : String) (h : "config_keys" ≠ k) :
    getKey (configStep cd?) k = none := by
  rcases cd? with _ | c <;> simp [configStep, getKey, h]

/-- The service step only ever records the keys `service_proxy_status`,
`available_services` and `service_proxy_error`. -/
theorem getKey_serviceGate (url? : Option String) (ho : HttpOutcome) (k : String)
    (h1 : "service_proxy_status" ≠ k) (h2 : "available_services" ≠ k)
    (h3 : "service_proxy_error" ≠ k) :
    getKey (serviceGate url? ho) k = none := by
  rcases url? with _ | url
  · rfl
  · by_cases hurl : url = ""
    · simp [serviceGate, hurl, getKey]
    · simp only [serviceGate, hurl, if_false]
      rcases ho with msg | ⟨code, body⟩
      · simp [serviceStep, getKey, h3]
      · by_cases hc : code = 200
        · subst hc
          rcases body with msg | data
          · simp [serviceStep, getKey, h3]
          · rcases hst : pyGetItem data "status" with msg | x
            · simp [serviceStep, hst, getKey, h3]
            · rcases hk : pyKeys (jget data "services" (.obj [])) with msg | names
              · simp [serviceStep, hst, hk, getKey, h1, h3]
              · simp [serviceStep, hst, hk, getKey, h1, h2]
        · simp [serviceStep, hc, getKey, h1]

/-- A successful graph step only ever records the key `input_graph_stats`. -/
theorem getKey_graphStep (gd? : Option JObj) (gkvs : JObj) (k : String)
    (hg : graphStep gd? = .ok gkvs) (h : "input_graph_stats" ≠ k) :
    getKey gkvs k = none := by
  rcases gd? with _ | g
  · simp only [graphStep] at hg
    cases hg
    rfl
  · unfold graphStep at hg
    rcases hn : pyLen (dictGet g "nodes" (.arr [])) with e | n
    · simp only [hn] at hg
      exact (Except.noConfusion hg)
    · rcases hm : pyLen (dictGet g "relationships" (.arr [])) with e | m
      · simp only [hn, hm] at hg
        exact (Except.noConfusion hg)
      · simp only [hn, hm] at hg
        cases hg
        simp [getKey, h]

/-- When the graph step succeeds, the whole run succeeds and produces the
results object, analysis report and optional graph update of the source. -/
theorem runMain_ok_of_graphStep (w : ContainerWorld) (gkvs : JObj)
    (hg : graphStep w.graphData? = .ok gkvs) :
    runMain w = .ok
      { resultsFileName := "results.json"
        results := buildResults w gkvs
        analysis := { executionId := w.executionId?.getD "unknown"
                      inputFilesProcessed := w.inputFiles.length
                      serviceProxyAvailable :=
                        (getKey (buildResults w gkvs) "service_proxy_status").isSome
                      graphDataAvailable :=
                        (getKey (buildResults w gkvs) "input_graph_stats").isSome
                      configurationAvailable :=
                        (getKey (buildResults w gkvs) "config_keys").isSome }
        graphUpdate? := w.graphData?.map fun _ =>
          mkGraphUpdate (w.executionId?.getD "unknown") } := by
  have hgno : getKey gkvs "input_files" = none :=
    getKey_graphStep w.graphData? gkvs _ hg (by decide)
  have hcno : getKey (configStep w.configData?) "input_files" = none :=
    getKey_configStep _ _ (by decide)
  have hfiles : getKey (buildResults w gkvs) "input_files"
      = some (.arr (w.inputFiles.map JVal.str)) := by
    unfold buildResults
    rw [List.append_assoc, List.append_assoc, List.append_assoc,
        getKey_append_none _ _ _ hgno, getKey_append_none _ _ _ hcno]
    exact getKey_append_some _ _ _ _ (by simp [getKey])
  unfold runMain
  rw [hg]
  simp only [dictGet, hfiles, Option.getD_some, pyLen, List.length_map]

/-- A shape-valid workspace never crashes the graph step. -/
theorem graphStep_ok_of_valid (w : ContainerWorld) (hv : validWorkspace w = true) :
    ∃ gkvs, graphStep w.graphData? = .ok gkvs := by
  rcases hgd : w.graphData? with _ | g
  · exact ⟨[], rfl⟩
  · simp only [validWorkspace, hgd, validGraph, Bool.and_eq_true] at hv
    obtain ⟨ns, hn⟩ := (isArr_iff _).mp hv.1
    obtain ⟨rs, hr⟩ := (isArr_iff _).mp hv.2
    exact ⟨_, graphStep_arr g ns rs hn hr⟩

/-- Looking a key up in the results object falls through to the final three
entries when it is absent from every earlier part. -/
theorem getKey_buildResults_tail (w : ContainerWorld) (gkvs : JObj) (k : String)
    (h0 : getKey gkvs k = none)
    (h1 : "config_keys" ≠ k) (h2 : "input_files" ≠ k)
    (hs : getKey (serviceGate w.serviceProxyUrl? w.healthOutcome) k = none) :
    getKey (buildResults w gkvs) k
      = getKey [("execution_id", .str (w.executionId?.getD "unknown")),
                ("status", .str "completed"),
                ("message", .str "Test container executed successfully")] k := by
  unfold buildResults
  rw [List.append_assoc, List.append_assoc, List.append_assoc,
      getKey_append_none _ _ _ h0,
      getKey_append_none _ _ _ (getKey_configStep _ _ h1),
      getKey_append_none _ _ _ (by simp [getKey, h2]),
      getKey_append_none _ _ _ hs]

/-- Looking a key up in the results object finds the value the service-proxy
step recorded for it when no earlier part holds the key. -/
theorem getKey_buildResults_service (w : ContainerWorld) (gkvs : JObj)
    (k : String) (v : JVal)
    (h0 : getKey gkvs k = none)
    (h1 : "config_keys" ≠ k) (h2 : "input_files" ≠ k)
    (hs : getKey (serviceGate w.serviceProxyUrl? w.healthOutcome) k = some v) :
    getKey (buildResults w gkvs) k = some v := by
  unfold buildResults
  rw [List.append_assoc, List.append_assoc, List.append_assoc,
      getKey_append_none _ _ _ h0,
      getKey_append_none _ _ _ (getKey_configStep _ _ h1),
      getKey_append_none _ _ _ (by simp [getKey, h2])]
  exact getKey_append_some _ _ _ _ hs

/-- Looking a key up in the results object finds the value the graph step
recorded for it. -/
theorem getKey_buildResults_graph (w : ContainerWorld) (gkvs : JObj)
    (k : String) (v : JVal) (h : getKey gkvs k = some v) :
    getKey (buildResults w gkvs) k = some v := by
  unfold buildResults
  rw [List.append_assoc, List.append_assoc, List.append_assoc]
  exact getKey_append_some _ _ _ _ h

/-- Every result object the worker dispatch produces is non-empty. -/
theorem workerDispatch_ne_nil (c : JObj) (res : JObj)
    (hd : workerDispatch c = .ok res) : res ≠ [] := by
  unfold workerDispatch at hd
  by_cases h1 : isStrEq (dictGet c "operation" (.str "default")) "data_processing" = true
  · rw [if_pos h1] at hd
    unfold process_data at hd
    rcases hp : pyLen (dictGet c "input_files" (.arr [])) with e | n
    · simp only [hp] at hd
      exact (Except.noConfusion hd)
    · simp only [hp] at hd
      cases hd
      simp
  · rw [if_neg h1] at hd
    by_cases h2 : isStrEq (dictGet c "operation" (.str "default")) "ml_training" = true
    · rw [if_pos h2] at hd
      cases hd
      simp [train_model]
    · rw [if_neg h2] at hd
      cases hd
      simp [default_processing]

/-- C6: Round-trip: for every GraphDelta with N nodes and M relationships,
written in the JSON shape the test container uses for
`output/graph_update.json` and read back through its graph-stats step, the
node count N and relationship count M are unchanged. -/
theorem c6_graph_delta_roundtrip (d : GraphDelta) :
    graphStep (some (encodeGraphDelta d)) = .ok [("input_graph_stats",
      .obj [("node_count", .num d.nodes.length),
            ("relationship_count", .num d.relationships.length)])] :=
  graphStep_arr _ d.nodes d.relationships
    (by simp [encodeGraphDelta, dictGet, getKey])
    (by simp [encodeGraphDelta, dictGet, getKey])

/-- C5: the worker selects its behavior by the configuration's `operation`
string tag: `data_processing` runs `process_data`, `ml_training` runs
`train_model`, and any other value — including a missing config file or a
missing `operation` key — runs `default_processing`, whose result has
operation field `default`; the selected result is what the run writes. -/
theorem c5_operation_dispatch (w : WorkerWorld) :
    runWorker w = (workerDispatch (workerConfig w)).map
        (fun r => { resultFileName := "result.json", result := r }) ∧
    (isStrEq (dictGet (workerConfig w) "operation" (.str "default")) "data_processing" = true →
      workerDispatch (workerConfig w) = process_data (workerConfig w)) ∧
    (isStrEq (dictGet (workerConfig w) "operation" (.str "default")) "ml_training" = true →
      workerDispatch (workerConfig w) = .ok (train_model (workerConfig w))) ∧
    (isStrEq (dictGet (workerConfig w) "operation" (.str "default")) "data_processing" = false →
     isStrEq (dictGet (workerConfig w) "operation" (.str "default")) "ml_training" = false →
      workerDispatch (workerConfig w) = .ok (default_processing (workerConfig w))) ∧
    (w.inputConfig? = none →
      workerDispatch (workerConfig w) = .ok (default_processing (workerConfig w))) ∧
    (getKey (workerConfig w) "operation" = none →
      workerDispatch (workerConfig w) = .ok (default_processing (workerConfig w))) ∧
    getKey (default_processing (workerConfig w)) "operation" = some (.str "default") := by
  refine ⟨?_, ?_, ?_, ?_, ?_, ?_, rfl⟩
  · unfold runWorker
    rcases hd : workerDispatch (workerConfig w) with e | r <;> simp [hd, Except.map]
  · intro h
    simp [workerDispatch, h]
  · intro h
    rw [isStrEq_true_iff] at h
    simp [workerDispatch, h, isStrEq]
  · intro h1 h2
    simp [workerDispatch, h1, h2]
  · intro h
    simp [workerConfig, h, workerDispatch, dictGet, getKey, isStrEq]
  · intro h
    simp [workerDispatch, dictGet, h, isStrEq]

/-- C5 witness: a missing config file dispatches to default processing, an
`ml_training` tag to model training, a `data_processing` tag to data
processing. -/
theorem c5_operation_dispatch_witness :
    workerDispatch (workerConfig ⟨none, none⟩)
      = .ok (default_processing (workerConfig ⟨none, none⟩)) ∧
    workerDispatch (workerConfig ⟨some [("operation", JVal.str "ml_training")], none⟩)
      = .ok (train_model (workerConfig ⟨some [("operation", JVal.str "ml_training")], none⟩)) ∧
    workerDispatch (workerConfig ⟨some [("operation", JVal.str "data_processing")], none⟩)
      = process_data (workerConfig ⟨some [("operation", JVal.str "data_processing")], none⟩) :=
  ⟨(c5_operation_dispatch ⟨none, none⟩).2.2.2.2.1 rfl,
   (c5_operation_dispatch ⟨some [("operation", JVal.str "ml_training")], none⟩).2.2.1 rfl,
   (c5_operation_dispatch ⟨some [("operation", JVal.str "data_processing")], none⟩).2.1 rfl⟩

/-- C2 counterexample: with no `/workspace/input/config.json`, the worker
uses the default configuration and produces the default result even though
`config/config.json` — the file the Materializer writes the config map to —
is present and requests `ml_training`; so the worker does not read its
operation parameters from `config/config.json`. -/
theorem c2_counterexample :
    sampleWorkerWorld.workspaceConfig? = some [("operation", JVal.str "ml_training")] ∧
    sampleWorkerWorld.inputConfig? = none ∧
    runWorker sampleWorkerWorld = .ok sampleWorkerOutcome ∧
    getKey sampleWorkerOutcome.result "operation" = some (JVal.str "default") ∧
    getKey sampleWorkerOutcome.result "operation" ≠ some (JVal.str "ml_training") := by
  refine ⟨rfl, rfl, rfl, rfl, ?_⟩
  simp [sampleWorkerOutcome, getKey]

/-- C2 (amended): the worker script reads its operation parameters from
`input/config.json`, not `config/config.json`; when that file is present, the
configuration the worker uses is its parsed contents, and the run is fully
determined by them. -/
theorem c2_worker_reads_input_config (w : WorkerWorld) (c : JObj)
    (h : w.inputConfig? = some c) :
    workerConfig w = c ∧
    runWorker w = (workerDispatch c).map
      (fun r => { resultFileName := "result.json", result := r }) := by
  have hc : workerConfig w = c := by simp [workerConfig, h]
  refine ⟨hc, ?_⟩
  unfold runWorker
  rw [hc]
  rcases hd : workerDispatch c with e | r <;> simp [hd, Except.map]

/-- C2 witness: a present `input/config.json` is the configuration used. -/
theorem c2_worker_reads_input_config_witness :
    workerConfig ⟨some [("operation", JVal.str "ml_training")], none⟩
        = [("operation", JVal.str "ml_training")] ∧
    runWorker ⟨some [("operation", JVal.str "ml_training")], none⟩
        = (workerDispatch [("operation", JVal.str "ml_training")]).map
            (fun r => { resultFileName := "result.json", result := r }) :=
  c2_worker_reads_input_config ⟨some [("operation", JVal.str "ml_training")], none⟩
    [("operation", JVal.str "ml_training")] rfl

/-- C7: every successful run of either example script writes its result
object to one of the two well-known paths under `output/` recognized by the
Result Collector (`results.json` for the test container, `result.json` for
the worker), and that object is never empty. -/
theorem c7_wellknown_result_path :
    (∀ w out, runMain w = .ok out →
      out.resultsFileName ∈ wellKnownNames ∧ out.results ≠ []) ∧
    (∀ v r, runWorker v = .ok r →
      r.resultFileName ∈ wellKnownNames ∧ r.result ≠ []) := by
  constructor
  · intro w out h
    rcases hg : graphStep w.graphData? with e | gkvs
    · unfold runMain at h
      simp only [hg] at h
      exact (Except.noConfusion h)
    · rw [runMain_ok_of_graphStep w gkvs hg] at h
      cases h
      refine ⟨by simp [wellKnownNames], ?_⟩
      intro hnil
      have hlen := congrArg List.length hnil
      simp [buildResults, List.length_append] at hlen
  · intro v r h
    unfold runWorker at h
    rcases hd : workerDispatch (workerConfig v) with e | res
    · simp only [hd] at h
      exact (Except.noConfusion h)
    · simp only [hd] at h
      cases h
      exact ⟨by simp [wellKnownNames], workerDispatch_ne_nil _ _ hd⟩

/-- C7 witness: a concrete run of each script, its result file name and its
non-empty result object. -/
theorem c7_wellknown_result_path_witness :
    runMain sampleEmptyWorld = .ok sampleEmptyOutcome ∧
    (sampleEmptyOutcome.resultsFileName ∈ wellKnownNames ∧
     sampleEmptyOutcome.results ≠ []) ∧
    runWorker ⟨none, none⟩ = .ok sampleWorkerOutcome ∧
    (sampleWorkerOutcome.resultFileName ∈ wellKnownNames ∧
     sampleWorkerOutcome.result ≠ []) :=
  ⟨rfl, c7_wellknown_result_path.1 sampleEmptyWorld sampleEmptyOutcome rfl,
   rfl, c7_wellknown_result_path.2 ⟨none, none⟩ sampleWorkerOutcome rfl⟩

/-- C1: for every execution of the test container whose workspace holds
`input/graph_data.json` with exactly 3 nodes and 2 relationships and whose
environment has no `SERVICE_PROXY_URL`, the run completes (exit code 0) with
status `completed`, `output/results.json` reports
`input_graph_stats: {node_count: 3, relationship_count: 2}`, and no
`service_proxy_status` key is present. -/
theorem c1_three_nodes_two_rels_no_proxy (w : ContainerWorld) (g : JObj)
    (ns rs : List JVal)
    (hg : w.graphData? = some g)
    (hn : dictGet g "nodes" (.arr []) = .arr ns) (hn3 : ns.length = 3)
    (hr : dictGet g "relationships" (.arr []) = .arr rs) (hr2 : rs.length = 2)
    (hurl : w.serviceProxyUrl? = none) :
    mainExitCode w = 0 ∧
    mainResultsFileName w = .ok "results.json" ∧
    mainResultKey w "status" = .ok (some (.str "completed")) ∧
    mainResultKey w "input_graph_stats"
      = .ok (some (.obj [("node_count", .num 3), ("relationship_count", .num 2)])) ∧
    mainResultKey w "service_proxy_status" = .ok none := by
  have hgs : graphStep w.graphData? = .ok [("input_graph_stats",
      .obj [("node_count", .num 3), ("relationship_count", .num 2)])] := by
    rw [hg]
    have h := graphStep_arr g ns rs hn hr
    rw [hn3, hr2] at h
    simpa using h
  have hrm := runMain_ok_of_graphStep w _ hgs
  refine ⟨by simp [mainExitCode, hrm],
          by simp [mainResultsFileName, hrm, Except.map], ?_, ?_, ?_⟩
  · simp only [mainResultKey, hrm, Except.map]
    rw [getKey_buildResults_tail w _ _ (by simp [getKey]) (by decide) (by decide)
      (by rw [hurl]; rfl)]
    simp [getKey]
  · simp only [mainResultKey, hrm, Except.map]
    rw [getKey_buildResults_graph w _ "input_graph_stats"
      (.obj [("node_count", .num 3), ("relationship_count", .num 2)]) (by simp [getKey])]
  · simp only [mainResultKey, hrm, Except.map]
    rw [getKey_buildResults_tail w _ _ (by simp [getKey]) (by decide) (by decide)
      (by rw [hurl]; rfl)]
    simp [getKey]

/-- C1 witness: the scenario at a concrete workspace with three nodes and
two relationships. -/
theorem c1_three_nodes_two_rels_no_proxy_witness :
    sampleNoProxyGraphWorld.graphData?
      = some [("nodes", .arr [.null, .null, .null]),
              ("relationships", .arr [.null, .null])] ∧
    sampleNoProxyGraphWorld.serviceProxyUrl? = none ∧
    (mainExitCode sampleNoProxyGraphWorld = 0 ∧
     mainResultsFileName sampleNoProxyGraphWorld = .ok "results.json" ∧
     mainResultKey sampleNoProxyGraphWorld "status" = .ok (some (.str "completed")) ∧
     mainResultKey sampleNoProxyGraphWorld "input_graph_stats"
       = .ok (some (.obj [("node_count", .num 3), ("relationship_count", .num 2)])) ∧
     mainResultKey sampleNoProxyGraphWorld "service_proxy_status" = .ok none) :=
  ⟨rfl, rfl,
   c1_three_nodes_two_rels_no_proxy sampleNoProxyGraphWorld
     [("nodes", .arr [.null, .null, .null]), ("relationships", .arr [.null, .null])]
     [.null, .null, .null] [.null, .null] rfl rfl rfl rfl rfl rfl⟩

/-- C3: for every execution with a shape-valid workspace whose environment
lacks `SERVICE_PROXY_URL`, the container skips the service-proxy step — no
proxy-related key, in particular no error key, appears in its results — and
it still completes with status `completed` and exit code 0. -/
theorem c3_no_proxy_url_not_an_error (w : ContainerWorld)
    (hv : validWorkspace w = true) (hurl : w.serviceProxyUrl? = none) :
    mainExitCode w = 0 ∧
    mainResultKey w "service_proxy_status" = .ok none ∧
    mainResultKey w "available_services" = .ok none ∧
    mainResultKey w "service_proxy_error" = .ok none ∧
    mainResultKey w "status" = .ok (some (.str "completed")) := by
  obtain ⟨gkvs, hgs⟩ := graphStep_ok_of_valid w hv
  have hrm := runMain_ok_of_graphStep w gkvs hgs
  refine ⟨by simp [mainExitCode, hrm], ?_, ?_, ?_, ?_⟩ <;>
    simp only [mainResultKey, hrm, Except.map]
  · rw [getKey_buildResults_tail w _ _
      (getKey_graphStep _ _ _ hgs (by decide)) (by decide) (by decide)
      (by rw [hurl]; rfl)]
    simp [getKey]
  · rw [getKey_buildResults_tail w _ _
      (getKey_graphStep _ _ _ hgs (by decide)) (by decide) (by decide)
      (by rw [hurl]; rfl)]
    simp [getKey]
  · rw [getKey_buildResults_tail w _ _
      (getKey_graphStep _ _ _ hgs (by decide)) (by decide) (by decide)
      (by rw [hurl]; rfl)]
    simp [getKey]
  · rw [getKey_buildResults_tail w _ _
      (getKey_graphStep _ _ _ hgs (by decide)) (by decide) (by decide)
      (by rw [hurl]; rfl)]
    simp [getKey]

/-- C3 witness: a concrete empty workspace with no proxy URL. -/
theorem c3_no_proxy_url_not_an_error_witness :
    validWorkspace sampleEmptyWorld = true ∧
    sampleEmptyWorld.serviceProxyUrl? = none ∧
    (mainExitCode sampleEmptyWorld = 0 ∧
     mainResultKey sampleEmptyWorld "service_proxy_status" = .ok none ∧
     mainResultKey sampleEmptyWorld "available_services" = .ok none ∧
     mainResultKey sampleEmptyWorld "service_proxy_error" = .ok none ∧
     mainResultKey sampleEmptyWorld "status" = .ok (some (.str "completed"))) :=
  ⟨rfl, rfl, c3_no_proxy_url_not_an_error sampleEmptyWorld rfl rfl⟩

/-- C4: for every execution with a shape-valid workspace where
`SERVICE_PROXY_URL` is set (non-empty) and `GET {url}/health` answers 200
with body `{"status": "healthy", "services": {"catalog": {}}}`, the collected
results contain `service_proxy_status` `"healthy"` and `available_services`
`["catalog"]`. -/
theorem c4_healthy_gateway_scenario (w : ContainerWorld) (url : String)
    (hv : validWorkspace w = true)
    (hurl : w.serviceProxyUrl? = some url) (hne : url ≠ "")
    (hho : w.healthOutcome = .response 200 (.ok (.obj
      [("status", .str "healthy"), ("services", .obj [("catalog", .obj [])])]))) :
    mainExitCode w = 0 ∧
    mainResultKey w "service_proxy_status" = .ok (some (.str "healthy")) ∧
    mainResultKey w "available_services" = .ok (some (.arr [.str "catalog"])) := by
  obtain ⟨gkvs, hgs⟩ := graphStep_ok_of_valid w hv
  have hrm := runMain_ok_of_graphStep w gkvs hgs
  have hsg : serviceGate w.serviceProxyUrl? w.healthOutcome
      = [("service_proxy_status", .str "healthy"),
         ("available_services", .arr [.str "catalog"])] := by
    rw [hurl, hho]
    simp [serviceGate, hne, serviceStep, pyGetItem, getKey, jget, dictGet, pyKeys]
  refine ⟨by simp [mainExitCode, hrm], ?_, ?_⟩ <;>
    simp only [mainResultKey, hrm, Except.map]
  · rw [getKey_buildResults_service w _ "service_proxy_status" (.str "healthy")
      (getKey_graphStep _ _ _ hgs (by decide)) (by decide) (by decide)
      (by rw [hsg]; simp [getKey])]
  · rw [getKey_buildResults_service w _ "available_services" (.arr [.str "catalog"])
      (getKey_graphStep _ _ _ hgs (by decide)) (by decide) (by decide)
      (by rw [hsg]; simp [getKey])]

/-- C4 witness: the healthy-gateway scenario at a concrete world. -/
theorem c4_healthy_gateway_scenario_witness :
    validWorkspace sampleHealthyWorld = true ∧
    sampleHealthyWorld.serviceProxyUrl? = some "http://localhost:8080" ∧
    sampleHealthyWorld.healthOutcome = .response 200 (.ok (.obj
      [("status", .str "healthy"), ("services", .obj [("catalog", .obj [])])])) ∧
    (mainExitCode sampleHealthyWorld = 0 ∧
     mainResultKey sampleHealthyWorld "service_proxy_status"
       = .ok (some (.str "healthy")) ∧
     mainResultKey sampleHealthyWorld "available_services"
       = .ok (some (.arr [.str "catalog"]))) :=
  ⟨rfl, rfl, rfl,
   c4_healthy_gateway_scenario sampleHealthyWorld "http://localhost:8080"
     rfl rfl (by decide) rfl⟩

/-- C9: for every execution with a shape-valid workspace where the health
request raises — the request itself fails (connection failure, timeout) or
the body fails to parse as JSON — the exception is swallowed: its message is
recorded under `service_proxy_error`, the run still writes
`output/results.json` with status `completed`, and the process exits 0. -/
theorem c9_health_exception_swallowed (w : ContainerWorld) (url m : String)
    (hv : validWorkspace w = true)
    (hurl : w.serviceProxyUrl? = some url) (hne : url ≠ "")
    (hex : w.healthOutcome = .connError m ∨
           w.healthOutcome = .response 200 (.error m)) :
    mainExitCode w = 0 ∧
    mainResultsFileName w = .ok "results.json" ∧
    mainResultKey w "service_proxy_error" = .ok (some (.str m)) ∧
    mainResultKey w "status" = .ok (some (.str "completed")) := by
  obtain ⟨gkvs, hgs⟩ := graphStep_ok_of_valid w hv
  have hrm := runMain_ok_of_graphStep w gkvs hgs
  have hsg : serviceGate w.serviceProxyUrl? w.healthOutcome
      = [("service_proxy_error", .str m)] := by
    rcases hex with hho | hho <;> rw [hurl, hho] <;>
      simp [serviceGate, hne, serviceStep]
  refine ⟨by simp [mainExitCode, hrm],
          by simp [mainResultsFileName, hrm, Except.map], ?_, ?_⟩ <;>
    simp only [mainResultKey, hrm, Except.map]
  · rw [getKey_buildResults_service w _ "service_proxy_error" (.str m)
      (getKey_graphStep _ _ _ hgs (by decide)) (by decide) (by decide)
      (by rw [hsg]; simp [getKey])]
  · rw [getKey_buildResults_tail w _ _
      (getKey_graphStep _ _ _ hgs (by decide)) (by decide) (by decide)
      (by rw [hsg]; simp [getKey])]
    simp [getKey]

/-- C9 witness: a concrete connection failure is swallowed. -/
theorem c9_health_exception_swallowed_witness :
    validWorkspace sampleConnErrorWorld = true ∧
    sampleConnErrorWorld.healthOutcome = .connError "Connection refused" ∧
    (mainExitCode sampleConnErrorWorld = 0 ∧
     mainResultsFileName sampleConnErrorWorld = .ok "results.json" ∧
     mainResultKey sampleConnErrorWorld "service_proxy_error"
       = .ok (some (.str "Connection refused")) ∧
     mainResultKey sampleConnErrorWorld "status" = .ok (some (.str "completed"))) :=
  ⟨rfl, rfl,
   c9_health_exception_swallowed sampleConnErrorWorld "http://localhost:8080"
     "Connection refused" rfl rfl (by decide) (Or.inl rfl)⟩

/-- C10: if `EXECUTION_ID` is absent, the test container does not fail: the
identifier defaults to the literal string `unknown`, which appears as
`execution_id` in `output/results.json`, in the analysis report, and
throughout the graph update generated when a graph input exists (node id
`analysis-unknown`, its `execution_id` property, relationship id
`analyzed-unknown` and its end node). -/
theorem c10_missing_execution_id_defaults (w : ContainerWorld)
    (hv : validWorkspace w = true) (hid : w.executionId? = none) :
    mainExitCode w = 0 ∧
    mainResultKey w "execution_id" = .ok (some (.str "unknown")) ∧
    mainAnalysisExecId w = .ok "unknown" ∧
    mainGraphUpdate w = .ok (w.graphData?.map fun _ => mkGraphUpdate "unknown") ∧
    mkGraphUpdate "unknown" = .obj [("nodes", .arr [ .obj [
        ("id", .str "analysis-unknown"),
        ("labels", .arr [.str "Analysis"]),
        ("properties", .obj [
          ("type", .str "container_execution"),
          ("execution_id", .str "unknown"),
          ("timestamp", .str "2025-01-01T00:00:00Z"),
          ("status", .str "completed")])]]),
      ("relationships", .arr [ .obj [
        ("id", .str "analyzed-unknown"),
        ("type", .str "ANALYZED_BY"),
        ("start_node", .str "original-data"),
        ("end_node", .str "analysis-unknown"),
        ("properties", .obj [("timestamp", .str "2025-01-01T00:00:00Z")])]])] := by
  obtain ⟨gkvs, hgs⟩ := graphStep_ok_of_valid w hv
  have hrm := runMain_ok_of_graphStep w gkvs hgs
  refine ⟨by simp [mainExitCode, hrm], ?_, ?_, ?_, rfl⟩
  · simp only [mainResultKey, hrm, Except.map]
    rw [getKey_buildResults_tail w _ _
      (getKey_graphStep _ _ _ hgs (by decide)) (by decide) (by decide)
      (getKey_serviceGate _ _ _ (by decide) (by decide) (by decide))]
    rw [hid]
    simp [getKey]
  · simp [mainAnalysisExecId, hrm, Except.map, hid]
  · simp [mainGraphUpdate, hrm, Except.map, hid]

/-- C10 witness: no `EXECUTION_ID` at a concrete world with a graph input. -/
theorem c10_missing_execution_id_defaults_witness :
    validWorkspace sampleNoIdWorld = true ∧
    sampleNoIdWorld.executionId? = none ∧
    (mainExitCode sampleNoIdWorld = 0 ∧
     mainResultKey sampleNoIdWorld "execution_id" = .ok (some (.str "unknown")) ∧
     mainAnalysisExecId sampleNoIdWorld = .ok "unknown" ∧
     mainGraphUpdate sampleNoIdWorld
       = .ok (sampleNoIdWorld.graphData?.map fun _ => mkGraphUpdate "unknown") ∧
     mkGraphUpdate "unknown" = .obj [("nodes", .arr [ .obj [
         ("id", .str "analysis-unknown"),
         ("labels", .arr [.str "Analysis"]),
         ("properties", .obj [
           ("type", .str "container_execution"),
           ("execution_id", .str "unknown"),
           ("timestamp", .str "2025-01-01T00:00:00Z"),
           ("status", .str "completed")])]]),
       ("relationships", .arr [ .obj [
         ("id", .str "analyzed-unknown"),
         ("type", .str "ANALYZED_BY"),
         ("start_node", .str "original-data"),
         ("end_node", .str "analysis-unknown"),
         ("properties", .obj [("timestamp", .str "2025-01-01T00:00:00Z")])]])]) :=
  ⟨rfl, rfl, c10_missing_execution_id_defaults sampleNoIdWorld rfl rfl⟩

/-- C8 counterexample: the health endpoint answers 200, yet — because the
container accesses the body's `status` field before recording anything — a
200 response whose body is the empty JSON object records no
`service_proxy_status` at all; the classification is not based solely on the
status code. -/
theorem c8_counterexample :
    sampleEmptyBodyWorld.healthOutcome = .response 200 (.ok (.obj [])) ∧
    mainResultKey sampleEmptyBodyWorld "service_proxy_status" = .ok none ∧
    mainResultKey sampleEmptyBodyWorld "service_proxy_error"
      = .ok (some (.str "KeyError: status")) :=
  ⟨rfl, rfl, rfl⟩

/-- C8 (amended): when the health endpoint answers 200 and the body parses as
a JSON object containing a `status` key, the container records
`service_proxy_status` `"healthy"` regardless of that field's value — even
`"unhealthy"` — together with `available_services` holding the keys of the
body's `services` mapping (when that value is a mapping); a non-200 status
code records `service_proxy_status` `"unhealthy"` and no `available_services`
key. -/
theorem c8_status_code_classification (code : Nat) (kvs skvs : JObj) (s : JVal)
    (hst : getKey kvs "status" = some s)
    (hsv : dictGet kvs "services" (.obj []) = .obj skvs) :
    (code = 200 →
      serviceStep (.response code (.ok (.obj kvs)))
        = [("service_proxy_status", .str "healthy"),
           ("available_services", .arr ((skvs.map Prod.fst).map JVal.str))]) ∧
    (code ≠ 200 →
      serviceStep (.response code (.ok (.obj kvs)))
        = [("service_proxy_status", .str "unhealthy")]) := by
  constructor
  · intro h
    subst h
    simp [serviceStep, pyGetItem, hst, jget, hsv, pyKeys]
  · intro h
    simp [serviceStep, h]

/-- C8 witness: a 200 response whose body says `unhealthy` is still recorded
as healthy with its service list, while a 503 response is recorded as
unhealthy with no service list. -/
theorem c8_status_code_classification_witness :
    getKey [("status", JVal.str "unhealthy"),
            ("services", JVal.obj [("catalog", JVal.obj [])])] "status"
      = some (JVal.str "unhealthy") ∧
    serviceStep (.response 200 (.ok (.obj
        [("status", JVal.str "unhealthy"),
         ("services", JVal.obj [("catalog", JVal.obj [])])])))
      = [("service_proxy_status", JVal.str "healthy"),
         ("available_services", JVal.arr [JVal.str "catalog"])] ∧
    serviceStep (.response 503 (.ok (.obj
        [("status", JVal.str "unhealthy"),
         ("services", JVal.obj [("catalog", JVal.obj [])])])))
      = [("service_proxy_status", JVal.str "unhealthy")] :=
  ⟨rfl,
   (c8_status_code_classification 200
     [("status", JVal.str "unhealthy"), ("services", JVal.obj [("catalog", JVal.obj [])])]
     [("catalog", JVal.obj [])] (JVal.str "unhealthy") rfl rfl).1 rfl,
   (c8_status_code_classification 503
     [("status", JVal.str "unhealthy"), ("services", JVal.obj [("catalog", JVal.obj [])])]
     [("catalog", JVal.obj [])] (JVal.str "unhealthy") rfl rfl).2 (by decide)⟩
